import Mathlib

/-!
Shallow embedding of `src/main.cpp` of the X11KeyboardWindow repository.

The embedding covers the two parts of the program with behavioural content:

* `XRAIIWrapper` (the `ScopedHandle` of the specification), lines 57 to 116
  of `src/main.cpp`: a scope-based auto-releasing handle built on
  `std::optional<std::pair<T, std::function<void(T&)>>>`.  A wrapper state is
  an optional pair of a stored value and an optional deleter; the deleter is
  abstracted as an opaque identifier of type `D`, and every operation that can
  run the deleter also returns the list of (deleter, argument) invocations it
  performs, so that "the release action is invoked exactly once with the
  stored value" becomes an equation on that trace.

* the `main` function, lines 141 to 322: the setup chain of checked library
  calls, the event loop with its `XFilterEvent` branch and the `switch` over
  event types, and the single top-level `catch` that prints a diagnostic and
  turns any thrown error into exit code 1.  Results of external X11 calls are
  inputs of the model (an `ExternalWorld` record and per-event fields).

C++ library semantics used by the embedding, recorded here because the C++
source relies on them implicitly: move construction or move assignment from
an engaged `std::optional` leaves the source optional engaged (its contained
pair is moved member-wise); moving from a `std::function` leaves the source
function empty (this is what libstdc++ and libc++ do; the standard only
promises a valid state); `std::optional::value()` on a disengaged optional
throws `std::bad_optional_access`.
-/

namespace X11KeyboardWindow

/-- The errors thrown inside `main.cpp`.  Each `std::runtime_error` message of
the source is abstracted to one constructor; `badOptionalAccess` is the
`std::bad_optional_access` thrown by `std::optional::value()`.  All of them
derive from `std::exception`, so all are caught by the single top-level
handler. -/
inductive MainError
  | setlocaleFailed
  | localeUnsupported (locale : String)
  | setLocaleModifiersFailed
  | openDisplayFailed
  | setWMProtocolsFailed
  | openIMFailed
  | getIMValuesFailed (arg : String)
  | getIMValuesNoStyles
  | vaCreateNestedListFailed
  | createICFailed
  | unknownLookupStatus (n : Int)
  | badOptionalAccess
  deriving DecidableEq, Repr

/-- State of `XRAIIWrapper<T>` (lines 57 to 116): the single data member is
`std::optional< std::pair<T, std::function<void(T&)>> > impl_`.  `T` is the
resource type; the `std::function` deleter is abstracted to `Option D`, where
`none` is the empty (nullptr) function and `some d` holds an opaque deleter
identifier `d : D`. -/
structure XRAIIWrapper (T D : Type) where
  impl_ : Option (T × Option D)
  deriving DecidableEq, Repr

namespace XRAIIWrapper

variable {T D : Type}

/-- The two-argument constructor (lines 63 to 66): stores the resource and
the deleter in `impl_` via `std::in_place`. -/
def construct (resource : T) (deleter : Option D) : XRAIIWrapper T D :=
  ⟨some (resource, deleter)⟩

/-- The one-argument constructor (lines 68 to 70): delegates to the
two-argument constructor with a `nullptr` deleter, so the stored
`std::function` is empty. -/
def constructNoDeleter (resource : T) : XRAIIWrapper T D :=
  construct resource none

/-- `reset` (lines 103 to 112): if `impl_` holds a value, invoke the deleter
on the stored resource when the deleter is non-empty, then disengage `impl_`;
otherwise do nothing.  Returns the new state and the trace of deleter
invocations performed (each as a (deleter, argument) pair). -/
def reset (w : XRAIIWrapper T D) : XRAIIWrapper T D × List (D × T) :=
  match w.impl_ with
  | some (v, some del) => (⟨none⟩, [(del, v)])
  | some (_, none) => (⟨none⟩, [])
  | none => (w, [])

/-- The destructor (lines 75 to 78): runs `reset()`.  After this the object
is gone, so only the invocation trace remains observable. -/
def destruct (w : XRAIIWrapper T D) : List (D × T) :=
  w.reset.2

/-- The defaulted move constructor (line 73): move-constructs `impl_`.
Move construction from an engaged `std::optional` leaves the source engaged
and moves the contained pair member-wise: the trivially-destructible `T` is
copied, and the moved-from `std::function` becomes empty.  Returns
(new object, residual source). -/
def moveConstruct (src : XRAIIWrapper T D) : XRAIIWrapper T D × XRAIIWrapper T D :=
  match src.impl_ with
  | some (v, d) => (⟨some (v, d)⟩, ⟨some (v, none)⟩)
  | none => (⟨none⟩, ⟨none⟩)

/-- Move assignment (lines 82 to 91): when `&rhs != this`, first `reset()`
the destination, then `impl_ = std::move(rhs.impl_)`.  Because the
destination optional was just disengaged, an engaged `rhs.impl_` is moved
into it and `rhs.impl_` stays engaged with a copied value and an emptied
`std::function`.  When `&rhs == this` (the `sameObject` flag), nothing
happens.  Returns (new destination, new source, invocation trace). -/
def moveAssign (sameObject : Bool) (self rhs : XRAIIWrapper T D) :
    XRAIIWrapper T D × XRAIIWrapper T D × List (D × T) :=
  if sameObject then (self, rhs, [])
  else
    let r := self.reset
    match rhs.impl_ with
    | some (v, d) => (⟨some (v, d)⟩, ⟨some (v, none)⟩, r.2)
    | none => (r.1, rhs, r.2)

/-- `getResource` and `operator const T&` (lines 94 to 100): both return
`impl_.value().first`; `std::optional::value()` throws
`std::bad_optional_access` when `impl_` is disengaged. -/
def getResource (w : XRAIIWrapper T D) : Except MainError T :=
  match w.impl_ with
  | some (v, _) => .ok v
  | none => .error .badOptionalAccess

end XRAIIWrapper

/-! Event type codes, from the external header `X11/X.h` (the `switch`
statements in `src/main.cpp` are over these values). -/

def KeyPress : Nat := 2

def KeyRelease : Nat := 3

def ButtonPress : Nat := 4

def ButtonRelease : Nat := 5

def MotionNotify : Nat := 6

def EnterNotify : Nat := 7

def LeaveNotify : Nat := 8

def FocusIn : Nat := 9

def FocusOut : Nat := 10

def KeymapNotify : Nat := 11

def Expose : Nat := 12

def GraphicsExpose : Nat := 13

def NoExpose : Nat := 14

def VisibilityNotify : Nat := 15

def CreateNotify : Nat := 16

def DestroyNotify : Nat := 17

def UnmapNotify : Nat := 18

def MapNotify : Nat := 19

def MapRequest : Nat := 20

def ReparentNotify : Nat := 21

def ConfigureNotify : Nat := 22

def ConfigureRequest : Nat := 23

def GravityNotify : Nat := 24

def ResizeRequest : Nat := 25

def CirculateNotify : Nat := 26

def CirculateRequest : Nat := 27

def PropertyNotify : Nat := 28

def SelectionClear : Nat := 29

def SelectionRequest : Nat := 30

def SelectionNotify : Nat := 31

def ColormapNotify : Nat := 32

def ClientMessage : Nat := 33

def MappingNotify : Nat := 34

def GenericEvent : Nat := 35

/-- The final status delivered by `Xutf8LookupString` (after the possible
`XBufferOverflow` retry in `InputMethodText::obtainFrom`, lines 710 to 755).
Any value other than the four lookup statuses, including a persisting
`XBufferOverflow`, falls into the `default` case of the `switch` and is
modelled by `unknown`. -/
inductive LookupStatus
  | xlookupNone
  | xlookupChars
  | xlookupKeySym
  | xlookupBoth
  | unknown (n : Int)
  deriving DecidableEq, Repr

/-- `struct InputMethodText` (lines 129 to 135). -/
structure InputMethodText where
  keySym : Option Nat
  composedTextUtf8 : Option String
  deriving DecidableEq, Repr

/-- `InputMethodText::obtainFrom` (lines 710 to 755): dispatch on the final
`Xutf8LookupString` status.  The two-call buffer-resize handshake only
determines the returned text, so the model takes the final status, key symbol
and composed text as inputs delivered by the input method.  The `default`
case throws `std::runtime_error`. -/
def InputMethodText.obtainFrom (status : LookupStatus) (keySym : Nat)
    (composedText : String) : Except MainError InputMethodText :=
  match status with
  | .xlookupNone => .ok ⟨none, none⟩
  | .xlookupChars => .ok ⟨none, some composedText⟩
  | .xlookupKeySym => .ok ⟨some keySym, none⟩
  | .xlookupBoth => .ok ⟨some keySym, some composedText⟩
  | .unknown n => .error (.unknownLookupStatus n)

/-- One event as delivered to an iteration of the event loop.  `type` is the
`XEvent::type` code; `filtered` is the result of `XFilterEvent` for this
event (decided by the input method, hence an input of the model); `data0` is
`event.xclient.data.l[0]` converted to `Atom`; the three `lookup` fields are
what `Xutf8LookupString` would deliver for this event when it is a
`KeyPress`. -/
structure Event where
  type : Nat
  filtered : Bool
  data0 : Nat
  lookupStatus : LookupStatus
  lookupKeySym : Nat
  lookupText : String
  deriving DecidableEq, Repr

/-- The header line produced by `logging::logX11Event(const XEvent&, bool)`
(lines 357 to 477) for a given event type, without the filtered marker: the
detailed cases log `<name> EVENT` directly, the undetailed cases go through
`eventNameForUndetailedLogging` and also end at `<name> EVENT`, and the
`default` case logs `UNKOWN (<type> ) EVENT` (the typo is in the source). -/
def eventHeaderBody (t : Nat) : String :=
  if t = ClientMessage then "ClientMessage EVENT"
  else if t = KeyPress then "KeyPress EVENT"
  else if t = KeyRelease then "KeyRelease EVENT"
  else if t = ButtonPress then "ButtonPress EVENT"
  else if t = ButtonRelease then "ButtonRelease EVENT"
  else if t = KeymapNotify then "KeymapNotify EVENT"
  else if t = MotionNotify then "MotionNotify EVENT"
  else if t = EnterNotify then "EnterNotify EVENT"
  else if t = LeaveNotify then "LeaveNotify EVENT"
  else if t = FocusIn then "FocusIn EVENT"
  else if t = FocusOut then "FocusOut EVENT"
  else if t = Expose then "Expose EVENT"
  else if t = GraphicsExpose then "GraphicsExpose EVENT"
  else if t = NoExpose then "NoExpose EVENT"
  else if t = VisibilityNotify then "VisibilityNotify EVENT"
  else if t = CreateNotify then "CreateNotify EVENT"
  else if t = DestroyNotify then "DestroyNotify EVENT"
  else if t = UnmapNotify then "UnmapNotify EVENT"
  else if t = MapNotify then "MapNotify EVENT"
  else if t = MapRequest then "MapRequest EVENT"
  else if t = ReparentNotify then "ReparentNotify EVENT"
  else if t = ConfigureNotify then "ConfigureNotify EVENT"
  else if t = ConfigureRequest then "ConfigureRequest EVENT"
  else if t = GravityNotify then "GravityNotify EVENT"
  else if t = ResizeRequest then "ResizeRequest EVENT"
  else if t = CirculateNotify then "CirculateNotify EVENT"
  else if t = CirculateRequest then "CirculateRequest EVENT"
  else if t = PropertyNotify then "PropertyNotify EVENT"
  else if t = SelectionClear then "SelectionClear EVENT"
  else if t = SelectionRequest then "SelectionRequest EVENT"
  else if t = SelectionNotify then "SelectionNotify EVENT"
  else if t = ColormapNotify then "ColormapNotify EVENT"
  else if t = MappingNotify then "MappingNotify EVENT"
  else if t = GenericEvent then "GenericEvent EVENT"
  else "UNKOWN (" ++ toString t ++ " ) EVENT"

/-- The filtered marker of `logging::logX11Event` (line 359): the header is
prefixed with `Filtered ` exactly when `XFilterEvent` filtered the event. -/
def logX11Event (t : Nat) (isFilteredOut : Bool) : String :=
  (if isFilteredOut then "Filtered " else "") ++ eventHeaderBody t

/-- The `switch (event.type)` of the event loop (lines 270 to 311), reached
only for non-filtered events.  `ClientMessage` sets `shouldExit` exactly when
`data.l[0]` equals the `WM_DELETE_WINDOW` atom; `KeyPress` calls
`InputMethodText::obtainFrom`, which can throw; every other case (and a type
matching no case) only breaks out of the switch. -/
def dispatchEvent (wmDeleteMessage : Nat) (ev : Event) : Except MainError Bool :=
  if ev.type = ClientMessage then
    .ok (decide (ev.data0 = wmDeleteMessage))
  else if ev.type = KeymapNotify then .ok false
  else if ev.type = KeyPress then
    match InputMethodText.obtainFrom ev.lookupStatus ev.lookupKeySym ev.lookupText with
    | .error e => .error e
    | .ok _ => .ok false
  else if ev.type = KeyRelease then .ok false
  else if ev.type = ButtonPress then .ok false
  else if ev.type = ButtonRelease then .ok false
  else .ok false

/-- One iteration of the event loop body (lines 256 to 312): after
`XNextEvent` and `XFilterEvent`, the event is logged (with the filtered
marker), then a filtered event is discarded by `continue`, and otherwise the
event goes through the switch.  Returns the log header produced for the event
and either the thrown error or the value of `shouldExit` after the
iteration. -/
def loopBody (wmDeleteMessage : Nat) (ev : Event) :
    String × Except MainError Bool :=
  let logLine := logX11Event ev.type ev.filtered
  if ev.filtered then (logLine, .ok false)
  else (logLine, dispatchEvent wmDeleteMessage ev)

/-- How a run of the event loop on a finite prefix of the event stream ends:
`exited ev` when processing `ev` set `shouldExit`, `err e` when an iteration
threw `e`, and `blocked` when the prefix ran out with the program still
inside `XNextEvent`. -/
inductive LoopOutcome
  | exited (ev : Event)
  | err (e : MainError)
  | blocked
  deriving DecidableEq, Repr

/-- The do-while event loop (lines 255 to 313) over a list of delivered
events. -/
def eventLoop (wmDeleteMessage : Nat) : List Event → LoopOutcome
  | [] => .blocked
  | ev :: rest =>
    match (loopBody wmDeleteMessage ev).2 with
    | .error e => .err e
    | .ok true => .exited ev
    | .ok false => eventLoop wmDeleteMessage rest

/-- Results of the external X11 calls made during setup, plus the stream of
delivered events: the inputs of one run of `main`.  Pointer-valued results
are modelled as `Nat` with `0` for `nullptr`. -/
structure ExternalWorld where
  setlocaleResult : Option String
  supportsLocale : Bool
  setLocaleModifiersOk : Bool
  openDisplayResult : Nat
  setWMProtocolsStatus : Nat
  openIMResult : Nat
  getIMValuesFailedArg : Option String
  getIMValuesStyles : Nat
  vaCreateNestedListResult : Nat
  createICResult : Nat
  wmDeleteAtom : Nat
  events : List Event
  deriving Repr

/-- How the try block of `main` ends when it ends. -/
inductive LoopEnd
  | exitedCleanly
  | stillWaiting
  deriving DecidableEq, Repr

/-- The try block of `main` (lines 143 to 314): the checked setup chain in
source order (`std::setlocale`, `XSupportsLocale`, `XSetLocaleModifiers`,
`XOpenDisplay`, `XSetWMProtocols`, `XOpenIM`, `obtainSupportedInputStyles`
with its two checks, `XVaCreateNestedList`, `XCreateIC`), each failure
throwing its error, followed by the event loop.  `ok exitedCleanly` is the
fall-through to `return 0`; `ok stillWaiting` means the modelled event prefix
ran out while the loop was still blocking in `XNextEvent`. -/
def runTryBlock (w : ExternalWorld) : Except MainError LoopEnd :=
  match w.setlocaleResult with
  | none => .error .setlocaleFailed
  | some locale =>
    if !w.supportsLocale then .error (.localeUnsupported locale)
    else if !w.setLocaleModifiersOk then .error .setLocaleModifiersFailed
    else if w.openDisplayResult = 0 then .error .openDisplayFailed
    else if w.setWMProtocolsStatus = 0 then .error .setWMProtocolsFailed
    else if w.openIMResult = 0 then .error .openIMFailed
    else
      match w.getIMValuesFailedArg with
      | some arg => .error (.getIMValuesFailed arg)
      | none =>
        if w.getIMValuesStyles = 0 then .error .getIMValuesNoStyles
        else if w.vaCreateNestedListResult = 0 then .error .vaCreateNestedListFailed
        else if w.createICResult = 0 then .error .createICFailed
        else
          match eventLoop w.wmDeleteAtom w.events with
          | .exited _ => .ok .exitedCleanly
          | .err e => .error e
          | .blocked => .ok .stillWaiting

/-- The observable end of a run of `main`: the exit code together with the
error printed to `std::cerr` by the top-level catch handler, or `blocked`
when the program is still waiting for the next event. -/
inductive SimOutcome
  | finished (code : Nat) (diag : Option MainError)
  | blocked
  deriving DecidableEq, Repr

/-- `main` (lines 141 to 322): the try block, the single
`catch (const std::exception&)` handler (lines 315 to 319) that prints the
description and returns 1, and the final `return 0`. -/
def mainModel (w : ExternalWorld) : SimOutcome :=
  match runTryBlock w with
  | .error e => .finished 1 (some e)
  | .ok .exitedCleanly => .finished 0 none
  | .ok .stillWaiting => .blocked

/-- C1: a handle constructed with a value and a release action and neither
moved from nor reset is destroyed by running the release action exactly once
on the stored value, and the state left behind by that reset supports no
further invocation: a second reset or destruction of that state performs
nothing. -/
theorem destructor_releases_exactly_once (T D : Type) (v : T) (d : D) :
    (XRAIIWrapper.construct v (some d)).destruct = [(d, v)] ∧
    (XRAIIWrapper.construct v (some d)).reset.1.destruct = [] ∧
    (XRAIIWrapper.construct v (some d)).reset.1.reset.2 = [] :=
  ⟨rfl, rfl, rfl⟩

/-- C2: move construction transfers ownership; destroying the moved-from
source invokes no release action, and destroying the destination afterwards
invokes the release action exactly once with the value originally stored in
the source. -/
theorem move_construct_transfers_ownership (T D : Type) (v : T) (d : D) :
    (XRAIIWrapper.construct v (some d)).moveConstruct.2.destruct = [] ∧
    (XRAIIWrapper.construct v (some d)).moveConstruct.1.destruct = [(d, v)] :=
  ⟨rfl, rfl⟩

/-- C3: move assignment into a handle owning (v1, r1) from a handle owning
(v2, r2) invokes r1 exactly once with v1 at assignment time; destroying the
destination afterwards invokes r2 exactly once with v2, and destroying the
moved-from source invokes nothing, so every release action runs exactly
once. -/
theorem move_assign_releases_old_then_adopts (T D : Type) (v1 v2 : T) (r1 r2 : D) :
    (XRAIIWrapper.moveAssign false (XRAIIWrapper.construct v1 (some r1))
        (XRAIIWrapper.construct v2 (some r2))).2.2 = [(r1, v1)] ∧
    (XRAIIWrapper.moveAssign false (XRAIIWrapper.construct v1 (some r1))
        (XRAIIWrapper.construct v2 (some r2))).1.destruct = [(r2, v2)] ∧
    (XRAIIWrapper.moveAssign false (XRAIIWrapper.construct v1 (some r1))
        (XRAIIWrapper.construct v2 (some r2))).2.1.destruct = [] :=
  ⟨rfl, rfl, rfl⟩

/-- C4: reset is idempotent on every handle state: the first reset invokes
the release action at most once and leaves a disengaged state, so a second
reset (and the destructor) performs no invocation. -/
theorem reset_idempotent (T D : Type) (w : XRAIIWrapper T D) :
    w.reset.2.length ≤ 1 ∧
    w.reset.1.impl_ = none ∧
    w.reset.1.reset.2 = [] ∧
    w.reset.1.destruct = [] := by
  rcases w with ⟨_ | ⟨v, _ | d⟩⟩ <;>
    simp [XRAIIWrapper.reset, XRAIIWrapper.destruct]

/-- C5: a handle constructed with no release action performs no observable
action when destroyed. -/
theorem no_deleter_no_action (T D : Type) (v : T) :
    (XRAIIWrapper.constructNoDeleter (D := D) v).destruct = [] :=
  rfl

/-- C8: move-assigning a handle to itself takes the `&rhs == this` branch
and is a no-op: the handle keeps its state and no release action is
invoked. -/
theorem self_move_assign_noop (T D : Type) (w : XRAIIWrapper T D) :
    XRAIIWrapper.moveAssign true w w = (w, w, []) :=
  rfl

/-- C9 counterexample: a handle that was move-assigned away (the source of a
move assignment) is still readable.  Here the source held value 5 with
deleter 0 and was moved into a destination holding value 7 with deleter 1:
afterwards `getResource` on the source succeeds and returns 5 instead of
raising an error, because moving from an engaged `std::optional` leaves it
engaged. -/
theorem moved_from_source_still_readable :
    (XRAIIWrapper.moveAssign false (XRAIIWrapper.construct (7 : Nat) (some (1 : Nat)))
        (XRAIIWrapper.construct (5 : Nat) (some (0 : Nat)))).2.1.getResource = .ok 5 :=
  rfl

theorem loopBody_snd_ok_true_iff (wm : Nat) (ev : Event) :
    (loopBody wm ev).2 = Except.ok true ↔
      ev.filtered = false ∧ ev.type = ClientMessage ∧ ev.data0 = wm := by
  rcases ev with ⟨t, f, d0, st, ks, tx⟩
  cases f <;> cases st <;>
    simp [loopBody, dispatchEvent, InputMethodText.obtainFrom] <;>
    split_ifs <;> simp_all

theorem loopBody_snd_error_iff (wm : Nat) (ev : Event) (e : MainError) :
    (loopBody wm ev).2 = Except.error e ↔
      ev.filtered = false ∧ ev.type = KeyPress ∧
        InputMethodText.obtainFrom ev.lookupStatus ev.lookupKeySym ev.lookupText =
          .error e := by
  rcases ev with ⟨t, f, d0, st, ks, tx⟩
  cases f <;> cases st <;>
    simp [loopBody, dispatchEvent, InputMethodText.obtainFrom] <;>
    split_ifs <;>
    simp_all [ClientMessage, KeymapNotify, KeyPress, KeyRelease, ButtonPress,
      ButtonRelease]

/-- C6: a run of the event loop terminates with an exit only by processing a
delivered event that is not filtered, is a `ClientMessage`, and carries the
`WM_DELETE_WINDOW` atom in its first data word; the only other way out is an
error thrown inside an iteration, which can arise only from a non-filtered
`KeyPress` whose text lookup returned an unknown status.  No other received
event ends the loop. -/
theorem loop_exits_only_on_wm_delete_or_error (wm : Nat) (evs : List Event) :
    (∀ ev, eventLoop wm evs = .exited ev →
        ev ∈ evs ∧ ev.filtered = false ∧ ev.type = ClientMessage ∧ ev.data0 = wm) ∧
    (∀ e, eventLoop wm evs = .err e →
        ∃ ev, ev ∈ evs ∧ ev.filtered = false ∧ ev.type = KeyPress ∧
          InputMethodText.obtainFrom ev.lookupStatus ev.lookupKeySym ev.lookupText =
            .error e) := by
  induction evs with
  | nil =>
    constructor <;> intro x h <;> simp [eventLoop] at h
  | cons ev0 rest ih =>
    constructor
    · intro ev h
      rcases hb : (loopBody wm ev0).2 with e | b
      · simp only [eventLoop, hb] at h
        exact LoopOutcome.noConfusion h
      · cases b
        · simp only [eventLoop, hb] at h
          have h2 := ih.1 ev h
          exact ⟨List.mem_cons_of_mem ev0 h2.1, h2.2⟩
        · simp only [eventLoop, hb, LoopOutcome.exited.injEq] at h
          subst h
          have h2 := (loopBody_snd_ok_true_iff wm ev0).1 hb
          exact ⟨List.mem_cons_self ev0 rest, h2⟩
    · intro e h
      rcases hb : (loopBody wm ev0).2 with e2 | b
      · simp only [eventLoop, hb, LoopOutcome.err.injEq] at h
        subst h
        have h2 := (loopBody_snd_error_iff wm ev0 e2).1 hb
        exact ⟨ev0, List.mem_cons_self ev0 rest, h2⟩
      · cases b
        · simp only [eventLoop, hb] at h
          obtain ⟨ev, hmem, hrest⟩ := ih.2 e h
          exact ⟨ev, List.mem_cons_of_mem ev0 hmem, hrest⟩
        · simp only [eventLoop, hb] at h
          exact LoopOutcome.noConfusion h

theorem loop_exits_only_on_wm_delete_or_error_witness :
    Event.mk ClientMessage false 7 .xlookupNone 0 "" ∈
        [Event.mk ClientMessage false 7 .xlookupNone 0 ""] ∧
    (Event.mk ClientMessage false 7 .xlookupNone 0 "").filtered = false ∧
    (Event.mk ClientMessage false 7 .xlookupNone 0 "").type = ClientMessage ∧
    (Event.mk ClientMessage false 7 .xlookupNone 0 "").data0 = 7 :=
  (loop_exits_only_on_wm_delete_or_error 7
      [Event.mk ClientMessage false 7 .xlookupNone 0 ""]).1
    (Event.mk ClientMessage false 7 .xlookupNone 0 "") rfl

/-- C10: an event that the input-method filter reports as filtered is logged
with the `Filtered ` marker, but the loop body discards it before the event
switch: it yields `shouldExit = false` whatever the event holds, and the loop
simply continues with the remaining events; in particular a filtered
window-close `ClientMessage` does not end the loop. -/
theorem filtered_events_logged_not_dispatched (wm : Nat) (ev : Event)
    (rest : List Event) (h : ev.filtered = true) :
    (loopBody wm ev).1 = "Filtered " ++ eventHeaderBody ev.type ∧
    (loopBody wm ev).2 = .ok false ∧
    eventLoop wm (ev :: rest) = eventLoop wm rest := by
  refine ⟨?_, ?_, ?_⟩ <;> simp [loopBody, logX11Event, eventLoop, h]

theorem filtered_events_logged_not_dispatched_witness :
    (Event.mk ClientMessage true 5 .xlookupNone 0 "").filtered = true ∧
    ((loopBody 5 (Event.mk ClientMessage true 5 .xlookupNone 0 "")).1 =
        "Filtered " ++ eventHeaderBody (Event.mk ClientMessage true 5 .xlookupNone 0 "").type ∧
      (loopBody 5 (Event.mk ClientMessage true 5 .xlookupNone 0 "")).2 = .ok false ∧
      eventLoop 5 [Event.mk ClientMessage true 5 .xlookupNone 0 ""] = eventLoop 5 []) :=
  ⟨rfl, filtered_events_logged_not_dispatched 5
    (Event.mk ClientMessage true 5 .xlookupNone 0 "") [] rfl⟩

/-- C7: the process exits with code 0 exactly when the try block fell
through after a clean window close, and with code 1 exactly when some step
threw an error, in which case the single top-level handler prints that
description of the error; no other exit codes and no uncaught or doubly
caught errors exist. -/
theorem exit_code_zero_iff_clean_close (w : ExternalWorld) :
    (∀ c d, mainModel w = .finished c d →
        (c = 0 ∧ d = none ∧ runTryBlock w = .ok .exitedCleanly) ∨
        (c = 1 ∧ ∃ e, d = some e ∧ runTryBlock w = .error e)) ∧
    (runTryBlock w = .ok .exitedCleanly → mainModel w = .finished 0 none) ∧
    (∀ e, runTryBlock w = .error e → mainModel w = .finished 1 (some e)) := by
  rcases hr : runTryBlock w with e | le
  · refine ⟨fun c d h => ?_, fun h => ?_, fun e2 h2 => ?_⟩
    · simp only [mainModel, hr, SimOutcome.finished.injEq] at h
      exact Or.inr ⟨h.1.symm, e, h.2.symm, by simp [hr]⟩
    · exact absurd h (by simp [hr])
    · have h3 : e = e2 := by injection h2
      subst h3
      simp [mainModel, hr]
  · cases le
    · refine ⟨fun c d h => ?_, fun h => ?_, fun e2 h2 => ?_⟩
      · simp only [mainModel, hr, SimOutcome.finished.injEq] at h
        exact Or.inl ⟨h.1.symm, h.2.symm, by simp [hr]⟩
      · simp [mainModel, hr]
      · exact absurd h2 (by simp [hr])
    · refine ⟨fun c d h => ?_, fun h => ?_, fun e2 h2 => ?_⟩
      · simp [mainModel, hr] at h
      · exact absurd h (by simp [hr])
      · exact absurd h2 (by simp [hr])

theorem exit_code_zero_iff_clean_close_witness :
    mainModel (ExternalWorld.mk (some "C") true true 1 1 1 none 1 1 1 7
        [Event.mk ClientMessage false 7 .xlookupNone 0 ""]) = .finished 0 none ∧
    mainModel (ExternalWorld.mk none true true 1 1 1 none 1 1 1 0 []) =
      .finished 1 (some .setlocaleFailed) :=
  ⟨(exit_code_zero_iff_clean_close (ExternalWorld.mk (some "C") true true 1 1 1 none 1 1 1 7
        [Event.mk ClientMessage false 7 .xlookupNone 0 ""])).2.1 rfl,
   (exit_code_zero_iff_clean_close (ExternalWorld.mk none true true 1 1 1 none 1 1 1 0 [])).2.2
      .setlocaleFailed rfl⟩

/-- C9 amended: after `reset` the stored value really is absent and
`getResource` (or the implicit conversion) raises `bad_optional_access`; but
a handle that is merely the source of a move (move construction or move
assignment) keeps an engaged `impl_`: its residual value stays readable while
its release action is cleared, so the moved-from state is inert yet
readable. -/
theorem reset_unreadable_but_moved_source_readable (T D : Type)
    (w w2 : XRAIIWrapper T D) (v : T) (d : Option D) :
    w.reset.1.getResource = .error .badOptionalAccess ∧
    (XRAIIWrapper.construct v d).moveConstruct.2.getResource = .ok v ∧
    (XRAIIWrapper.construct v d).moveConstruct.2.destruct = [] ∧
    (XRAIIWrapper.moveAssign false w2 (XRAIIWrapper.construct v d)).2.1.getResource = .ok v ∧
    (XRAIIWrapper.moveAssign false w2 (XRAIIWrapper.construct v d)).2.1.destruct = [] := by
  refine ⟨?_, rfl, rfl, rfl, rfl⟩
  rcases w with ⟨_ | ⟨x, _ | y⟩⟩ <;>
    simp [XRAIIWrapper.reset, XRAIIWrapper.getResource]

end X11KeyboardWindow
